import Mathlib

/-!
Shallow embedding of `src/cuda/api/types.h` from the cuda-api-wrappers
repository, together with proofs about its value types.

Modelling conventions:
* C++ `unsigned` (32-bit) values are `Nat`s; wherever the source's
  arithmetic can wrap, the wrap is made explicit with `% 2^32`.
  Quantifications over "every value of the C++ type" carry the bound
  `< 2^32` as a hypothesis.
* `size_t` is the 64-bit unsigned type (as the spec states), so results
  computed in `size_t` are reduced `% 2^64`.
* `bool`-returning operators become `Bool`-valued functions; the C++
  implicit bool-to-integer conversion (as in `empty`, which is declared
  to return `size_t`) is `Bool.toNat`.
-/

namespace cuda

/-- `dimensions_t` (publicly inheriting CUDA's `dim3`): three unsigned
(32-bit) components `x`, `y`, `z`.  The base struct `dim3` carries exactly
these three fields and nothing else, so base and derived type are a single
structure here. -/
structure dimensions_t where
  x : Nat
  y : Nat
  z : Nat
deriving DecidableEq

/-- `dimensions_t::empty`: the source computes the bool
`(x == 0) or (y == 0) or (z == 0)` and returns it as `size_t`
(so `1` for true, `0` for false). -/
def dimensions_t.empty (d : dimensions_t) : Nat :=
  ((d.x == 0) || (d.y == 0) || (d.z == 0)).toNat

/-- `dimensions_t::volume`: `(size_t) x * y * z`.  The cast applies to `x`
alone (unary cast binds tighter than `*`), so `y` and `z` are promoted to
`size_t` by the usual arithmetic conversions and the whole product is
computed in 64-bit arithmetic, left to right, each step modulo `2^64`. -/
def dimensions_t.volume (d : dimensions_t) : Nat :=
  d.x * d.y % 2 ^ 64 * d.z % 2 ^ 64

/-- `dimensions_t::dimensionality`: `(z > 1) + (y > 1) + (x > 1)`, the three
comparison results converted to integers and summed (the sum is at most 3,
so the conversion of the result to `unsigned char` never truncates). -/
def dimensions_t.dimensionality (d : dimensions_t) : Nat :=
  (decide (d.z > 1)).toNat + (decide (d.y > 1)).toNat + (decide (d.x > 1)).toNat

/-- `operator==(const dim3&, const dim3&)`: component-wise comparison. -/
def dim3_eq (lhs rhs : dimensions_t) : Bool :=
  lhs.x == rhs.x && lhs.y == rhs.y && lhs.z == rhs.z

/-- `operator==(const dimensions_t&, const dimensions_t&)`: casts both sides
to the base `dim3` (the identity in this model, since `dimensions_t` adds no
fields) and compares with `dim3`'s `operator==`. -/
def dimensions_t_eq (lhs rhs : dimensions_t) : Bool :=
  dim3_eq lhs rhs

/-- `compute_capability_t`: a (major, minor) pair of unsigned values. -/
structure compute_capability_t where
  major : Nat
  minor : Nat
deriving DecidableEq

/-- `compute_capability_t::as_combined_number`: `major * 10 + minor` in
unsigned 32-bit arithmetic (the multiplication and the addition each wrap
modulo `2^32`). -/
def compute_capability_t.as_combined_number (cc : compute_capability_t) : Nat :=
  (cc.major * 10 % 2 ^ 32 + cc.minor) % 2 ^ 32

/-- `compute_capability_t::from_combined_number`:
`{ combined / 10, combined % 10 }` (unsigned division and remainder). -/
def compute_capability_t.from_combined_number (combined : Nat) : compute_capability_t :=
  ⟨combined / 10, combined % 10⟩

/-- `compute_capability_t::is_valid`:
`(major > 0) and (major < 9999) and (minor > 0) and (minor < 9999)`. -/
def compute_capability_t.is_valid (cc : compute_capability_t) : Bool :=
  decide (cc.major > 0) && decide (cc.major < 9999) &&
    decide (cc.minor > 0) && decide (cc.minor < 9999)

/-- `operator==` on `compute_capability_t`: field-wise. -/
def cc_eq (lhs rhs : compute_capability_t) : Bool :=
  lhs.major == rhs.major && lhs.minor == rhs.minor

/-- `operator!=` on `compute_capability_t`:
`lhs.major != rhs.major or lhs.minor != rhs.minor`. -/
def cc_ne (lhs rhs : compute_capability_t) : Bool :=
  lhs.major != rhs.major || lhs.minor != rhs.minor

/-- `operator<` on `compute_capability_t`:
`lhs.major < rhs.major or (lhs.major == rhs.major and lhs.minor < rhs.minor)`. -/
def cc_lt (lhs rhs : compute_capability_t) : Bool :=
  decide (lhs.major < rhs.major) ||
    (lhs.major == rhs.major && decide (lhs.minor < rhs.minor))

/-- `operator<=` on `compute_capability_t`. -/
def cc_le (lhs rhs : compute_capability_t) : Bool :=
  decide (lhs.major < rhs.major) ||
    (lhs.major == rhs.major && decide (lhs.minor ≤ rhs.minor))

/-- `operator>` on `compute_capability_t`. -/
def cc_gt (lhs rhs : compute_capability_t) : Bool :=
  decide (lhs.major > rhs.major) ||
    (lhs.major == rhs.major && decide (lhs.minor > rhs.minor))

/-- `operator>=` on `compute_capability_t`. -/
def cc_ge (lhs rhs : compute_capability_t) : Bool :=
  decide (lhs.major > rhs.major) ||
    (lhs.major == rhs.major && decide (lhs.minor ≥ rhs.minor))

/-- `launch_configuration_t`: grid dimensions, block dimensions and the
dynamic shared-memory size in bytes (`unsigned short`). -/
structure launch_configuration_t where
  grid_dimensions : dimensions_t
  block_dimensions : dimensions_t
  dynamic_shared_memory_size : Nat
deriving DecidableEq

/-- `operator==(launch_configuration_t, const launch_configuration_t&)`:
conjunction of the two dimension comparisons and the shared-memory-size
comparison. -/
def launch_config_eq (lhs rhs : launch_configuration_t) : Bool :=
  dimensions_t_eq lhs.grid_dimensions rhs.grid_dimensions &&
    dimensions_t_eq lhs.block_dimensions rhs.block_dimensions &&
    (lhs.dynamic_shared_memory_size == rhs.dynamic_shared_memory_size)

/-- Modelled from the spec: the numeric values of `cudaFuncCachePreferNone`,
`cudaFuncCachePreferEqual`, `cudaFuncCachePreferShared` and
`cudaFuncCachePreferL1` come from the external driver header
(`driver_types.h`), which is not part of this repository.  The spec only
requires a fixed 1:1 mapping onto these external constants, so they are
abstracted as an arbitrary tuple of naturals supplied by the driver. -/
structure cudaFuncCacheConstants where
  preferNone : Nat
  preferEqual : Nat
  preferShared : Nat
  preferL1 : Nat

/-- `multiprocessor_cache_preference_t::no_preference = cudaFuncCachePreferNone`. -/
def multiprocessor_cache_preference_t.no_preference (c : cudaFuncCacheConstants) : Nat :=
  c.preferNone

/-- `multiprocessor_cache_preference_t::equal_l1_and_shared_memory = cudaFuncCachePreferEqual`. -/
def multiprocessor_cache_preference_t.equal_l1_and_shared_memory (c : cudaFuncCacheConstants) : Nat :=
  c.preferEqual

/-- `multiprocessor_cache_preference_t::prefer_shared_memory_over_l1 = cudaFuncCachePreferShared`. -/
def multiprocessor_cache_preference_t.prefer_shared_memory_over_l1 (c : cudaFuncCacheConstants) : Nat :=
  c.preferShared

/-- `multiprocessor_cache_preference_t::prefer_l1_over_shared_memory = cudaFuncCachePreferL1`. -/
def multiprocessor_cache_preference_t.prefer_l1_over_shared_memory (c : cudaFuncCacheConstants) : Nat :=
  c.preferL1

/-- Alias: `none = no_preference`. -/
def multiprocessor_cache_preference_t.none (c : cudaFuncCacheConstants) : Nat :=
  multiprocessor_cache_preference_t.no_preference c

/-- Alias: `equal = equal_l1_and_shared_memory`. -/
def multiprocessor_cache_preference_t.equal (c : cudaFuncCacheConstants) : Nat :=
  multiprocessor_cache_preference_t.equal_l1_and_shared_memory c

/-- Alias: `prefer_shared = prefer_shared_memory_over_l1`. -/
def multiprocessor_cache_preference_t.prefer_shared (c : cudaFuncCacheConstants) : Nat :=
  multiprocessor_cache_preference_t.prefer_shared_memory_over_l1 c

/-- Alias: `prefer_l1 = prefer_l1_over_shared_memory`. -/
def multiprocessor_cache_preference_t.prefer_l1 (c : cudaFuncCacheConstants) : Nat :=
  multiprocessor_cache_preference_t.prefer_l1_over_shared_memory c

/-- `synchronicity_t::asynchronous = false` (underlying type `bool`). -/
def synchronicity_t.asynchronous : Bool := false

/-- `synchronicity_t::synchronous = true`. -/
def synchronicity_t.synchronous : Bool := true

/-- Alias: `sync = synchronous`. -/
def synchronicity_t.sync : Bool := synchronicity_t.synchronous

/-- Alias: `async = asynchronous`. -/
def synchronicity_t.async : Bool := synchronicity_t.asynchronous

/-- The semantics the spec ascribes to `volume` in claim C3: 32-bit
multiplicands kept, so the multiplication itself wraps modulo `2^32` and
only the final result is widened.  Written from the spec's words, for
comparison with the source-derived `dimensions_t.volume`. -/
def volume_spec32 (d : dimensions_t) : Nat :=
  d.x * d.y % 2 ^ 32 * d.z % 2 ^ 32

/-- The left-to-right 64-bit product in `volume` equals the full product
reduced modulo `2^64`. -/
theorem volume_eq_mod (x y z : Nat) :
    dimensions_t.volume ⟨x, y, z⟩ = x * y * z % 2 ^ 64 := by
  simp [dimensions_t.volume, Nat.mod_mul_mod]

/-- Unfolded arithmetic form of `as_combined_number`, with the modulus as a
numeral so that `omega` can reason about it. -/
theorem as_combined_number_eq (major minor : Nat) :
    compute_capability_t.as_combined_number ⟨major, minor⟩ =
      (major * 10 % 4294967296 + minor) % 4294967296 := by
  simp [compute_capability_t.as_combined_number]

/-- C1 counterexample: the claim quantifies over every `compute_capability_t`
with `minor < 10`, but `as_combined_number` multiplies the 32-bit `major` by
10 in 32-bit arithmetic, so for `major = 430000000` (a representable unsigned
value) the product wraps and the round-trip returns `(503270, 9)`, not the
original `(430000000, 5)`, even though `minor = 5 < 10`. -/
theorem C1_roundtrip_counterexample :
    (⟨430000000, 5⟩ : compute_capability_t).minor < 10 ∧
      compute_capability_t.from_combined_number
        (compute_capability_t.as_combined_number ⟨430000000, 5⟩) = ⟨503270, 9⟩ ∧
      compute_capability_t.from_combined_number
        (compute_capability_t.as_combined_number ⟨430000000, 5⟩) ≠ ⟨430000000, 5⟩ := by
  refine ⟨by decide, by decide, by decide⟩

/-- C1 (amended): `from_combined_number (as_combined_number cc) = cc` holds
exactly under the precondition `cc.minor < 10` **and** no 32-bit overflow,
i.e. `cc.major * 10 + cc.minor < 2^32`; and for every representable value
with `minor ≥ 10` the round-trip never reproduces `cc`, since the
reconstructed minor component is a remainder modulo 10. -/
theorem C1_roundtrip :
    (∀ major minor : Nat, minor < 10 → major * 10 + minor < 2 ^ 32 →
        compute_capability_t.from_combined_number
          (compute_capability_t.as_combined_number ⟨major, minor⟩) = ⟨major, minor⟩) ∧
    (∀ major minor : Nat, 10 ≤ minor →
        compute_capability_t.from_combined_number
          (compute_capability_t.as_combined_number ⟨major, minor⟩) ≠ ⟨major, minor⟩) := by
  have hpow : (2 : Nat) ^ 32 = 4294967296 := by norm_num
  constructor
  · intro major minor h1 h2
    rw [hpow] at h2
    have hm1 : major * 10 % 4294967296 = major * 10 := Nat.mod_eq_of_lt (by omega)
    have hm2 : (major * 10 + minor) % 4294967296 = major * 10 + minor :=
      Nat.mod_eq_of_lt (by omega)
    rw [as_combined_number_eq, hm1, hm2]
    simp only [compute_capability_t.from_combined_number, compute_capability_t.mk.injEq]
    omega
  · intro major minor h1 heq
    rw [compute_capability_t.from_combined_number, as_combined_number_eq,
      compute_capability_t.mk.injEq] at heq
    omega

/-- C1 witness: the round-trip at `(7, 5)` (its hypotheses hold) and the
round-trip failure at `(7, 15)`. -/
theorem C1_roundtrip_witness :
    compute_capability_t.from_combined_number
        (compute_capability_t.as_combined_number ⟨7, 5⟩) = ⟨7, 5⟩ ∧
      compute_capability_t.from_combined_number
        (compute_capability_t.as_combined_number ⟨7, 15⟩) ≠ ⟨7, 15⟩ :=
  ⟨C1_roundtrip.1 7 5 (by decide) (by norm_num),
    C1_roundtrip.2 7 15 (by decide)⟩

/-- C2: for every `dimensions_t` (components are 32-bit unsigned values)
whose mathematical product fits in the 64-bit result width, `volume` returns
exactly `x * y * z`. -/
theorem C2_volume_exact :
    ∀ x y z : Nat, x < 2 ^ 32 → y < 2 ^ 32 → z < 2 ^ 32 → x * y * z < 2 ^ 64 →
      dimensions_t.volume ⟨x, y, z⟩ = x * y * z := by
  intro x y z _ _ _ h
  rw [volume_eq_mod]
  exact Nat.mod_eq_of_lt h

/-- C2 witness: the boundary value `x = y = z = 0xFFFF` from the claim. -/
theorem C2_volume_exact_witness :
    dimensions_t.volume ⟨65535, 65535, 65535⟩ = 65535 * 65535 * 65535 :=
  C2_volume_exact 65535 65535 65535 (by norm_num) (by norm_num) (by norm_num)
    (by norm_num)

/-- C3 counterexample: the claim says the multiplication wraps modulo `2^32`
before widening, but at `(65536, 65537, 1)` — whose true product
`4295032832` exceeds `2^32` — `volume` returns the exact product, not the
product modulo `2^32` (which would be `65536`): the cast widens the first
multiplicand to `size_t` before any multiplication happens. -/
theorem C3_volume_counterexample :
    2 ^ 32 < 65536 * 65537 * 1 ∧
      dimensions_t.volume ⟨65536, 65537, 1⟩ ≠ volume_spec32 ⟨65536, 65537, 1⟩ ∧
      dimensions_t.volume ⟨65536, 65537, 1⟩ ≠ 65536 * 65537 * 1 % 2 ^ 32 ∧
      dimensions_t.volume ⟨65536, 65537, 1⟩ = 65536 * 65537 * 1 := by
  refine ⟨by norm_num, by decide, by decide, by decide⟩

/-- C3 (amended): `volume` casts the first multiplicand to 64-bit `size_t`
before multiplying, so the whole multiplication is carried out modulo
`2^64`, never modulo `2^32`: it is exact for every product below `2^64`
(including all products in `[2^32, 2^64)`), and for some representable
inputs whose product reaches `2^64` it returns `x * y * z mod 2^64` rather
than the exact product. -/
theorem C3_volume_overflow :
    (∀ x y z : Nat, dimensions_t.volume ⟨x, y, z⟩ = x * y * z % 2 ^ 64) ∧
    (∀ x y z : Nat, 2 ^ 32 ≤ x * y * z → x * y * z < 2 ^ 64 →
        dimensions_t.volume ⟨x, y, z⟩ = x * y * z) ∧
    (∃ x y z : Nat, x < 2 ^ 32 ∧ y < 2 ^ 32 ∧ z < 2 ^ 32 ∧ 2 ^ 64 ≤ x * y * z ∧
        dimensions_t.volume ⟨x, y, z⟩ = x * y * z % 2 ^ 64 ∧
        dimensions_t.volume ⟨x, y, z⟩ ≠ x * y * z) := by
  refine ⟨volume_eq_mod, ?_, 2 ^ 22, 2 ^ 21, 2 ^ 21, by norm_num, by norm_num,
    by norm_num, by norm_num, volume_eq_mod _ _ _, ?_⟩
  · intro x y z _ h
    rw [volume_eq_mod]
    exact Nat.mod_eq_of_lt h
  · rw [volume_eq_mod]
    norm_num

/-- C3 witness: the exactness part of the amended claim applied at a
concrete product in `[2^32, 2^64)`. -/
theorem C3_volume_overflow_witness :
    dimensions_t.volume ⟨65536, 65536, 2⟩ = 65536 * 65536 * 2 :=
  C3_volume_overflow.2.1 65536 65536 2 (by norm_num) (by norm_num)

/-- C10: the reverse round-trip is unconditional on the unsigned domain:
`from_combined_number` always yields a minor component `n % 10 < 10`, and
for every unsigned value `n` (i.e. `n < 2^32`),
`as_combined_number (from_combined_number n) = n`. -/
theorem C10_reverse_roundtrip :
    (∀ n : Nat, (compute_capability_t.from_combined_number n).minor < 10) ∧
    (∀ n : Nat, n < 2 ^ 32 →
        compute_capability_t.as_combined_number
          (compute_capability_t.from_combined_number n) = n) := by
  have hpow : (2 : Nat) ^ 32 = 4294967296 := by norm_num
  constructor
  · intro n
    simp only [compute_capability_t.from_combined_number]
    omega
  · intro n hn
    rw [hpow] at hn
    rw [compute_capability_t.from_combined_number, as_combined_number_eq]
    omega

/-- C10 witness: the reverse round-trip at `n = 85`. -/
theorem C10_reverse_roundtrip_witness :
    compute_capability_t.as_combined_number
      (compute_capability_t.from_combined_number 85) = 85 :=
  C10_reverse_roundtrip.2 85 (by norm_num)

/-- Propositional characterisation of `operator==`. -/
theorem cc_eq_iff (a b : compute_capability_t) :
    cc_eq a b = true ↔ a.major = b.major ∧ a.minor = b.minor := by
  simp [cc_eq]

/-- Propositional characterisation of `operator<`. -/
theorem cc_lt_iff (a b : compute_capability_t) :
    cc_lt a b = true ↔ a.major < b.major ∨ (a.major = b.major ∧ a.minor < b.minor) := by
  simp [cc_lt]

/-- Propositional characterisation of `operator>`. -/
theorem cc_gt_iff (a b : compute_capability_t) :
    cc_gt a b = true ↔ b.major < a.major ∨ (a.major = b.major ∧ b.minor < a.minor) := by
  simp [cc_gt]

/-- Propositional characterisation of `operator<=`. -/
theorem cc_le_iff (a b : compute_capability_t) :
    cc_le a b = true ↔ a.major < b.major ∨ (a.major = b.major ∧ a.minor ≤ b.minor) := by
  simp [cc_le]

/-- Propositional characterisation of `operator>=`. -/
theorem cc_ge_iff (a b : compute_capability_t) :
    cc_ge a b = true ↔ b.major < a.major ∨ (a.major = b.major ∧ b.minor ≤ a.minor) := by
  simp [cc_ge]

/-- C4: the comparison operators on `compute_capability_t` form a strict
total order, lexicographic on `(major, minor)`: `==` and `!=` are
field-wise, `<` is lexicographic, irreflexive and transitive, exactly one
of `<`, `==`, `>` holds for every pair, `<=` and `>=` agree with
`< or ==` and `> or ==`, and the spec's concrete instances hold. -/
theorem C4_cc_order :
    (∀ a b : compute_capability_t,
        cc_eq a b = true ↔ a.major = b.major ∧ a.minor = b.minor) ∧
    (∀ a b : compute_capability_t,
        cc_ne a b = true ↔ ¬(a.major = b.major ∧ a.minor = b.minor)) ∧
    (∀ a b : compute_capability_t,
        cc_lt a b = true ↔ a.major < b.major ∨ (a.major = b.major ∧ a.minor < b.minor)) ∧
    (∀ a : compute_capability_t, cc_lt a a = false) ∧
    (∀ a b c : compute_capability_t,
        cc_lt a b = true → cc_lt b c = true → cc_lt a c = true) ∧
    (∀ a b : compute_capability_t,
        (cc_lt a b = true ∧ cc_eq a b = false ∧ cc_gt a b = false) ∨
        (cc_lt a b = false ∧ cc_eq a b = true ∧ cc_gt a b = false) ∨
        (cc_lt a b = false ∧ cc_eq a b = false ∧ cc_gt a b = true)) ∧
    (∀ a b : compute_capability_t, cc_le a b = (cc_lt a b || cc_eq a b)) ∧
    (∀ a b : compute_capability_t, cc_ge a b = (cc_gt a b || cc_eq a b)) ∧
    (cc_lt ⟨7, 0⟩ ⟨7, 5⟩ = true ∧ cc_lt ⟨7, 5⟩ ⟨8, 0⟩ = true ∧
      cc_eq ⟨7, 5⟩ ⟨7, 5⟩ = true ∧ cc_gt ⟨8, 0⟩ ⟨7, 9⟩ = true) := by
  refine ⟨cc_eq_iff, ?_, cc_lt_iff, ?_, ?_, ?_, ?_, ?_,
    by decide, by decide, by decide, by decide⟩
  · intro a b
    simp [cc_ne, not_and_or]
    tauto
  · intro a
    simp [cc_lt]
  · intro a b c hab hbc
    rw [cc_lt_iff] at hab hbc ⊢
    omega
  · intro a b
    simp only [Bool.eq_false_iff, ne_eq, cc_lt_iff, cc_eq_iff, cc_gt_iff]
    omega
  · intro a b
    rw [Bool.eq_iff_iff]
    simp only [Bool.or_eq_true, cc_le_iff, cc_lt_iff, cc_eq_iff]
    omega
  · intro a b
    rw [Bool.eq_iff_iff]
    simp only [Bool.or_eq_true, cc_ge_iff, cc_gt_iff, cc_eq_iff]
    omega

/-- C4 witness: transitivity of `<` applied at `(7,0) < (7,5) < (8,0)`. -/
theorem C4_cc_order_witness : cc_lt ⟨7, 0⟩ ⟨8, 0⟩ = true :=
  C4_cc_order.2.2.2.2.1 ⟨7, 0⟩ ⟨7, 5⟩ ⟨8, 0⟩ (by decide) (by decide)

/-- C5: `is_valid` holds iff both fields are strictly between 0 and 9999:
it is true throughout `[1, 9998] × [1, 9998]` and false whenever a field is
0 or at least 9999. -/
theorem C5_is_valid :
    ∀ major minor : Nat,
      (compute_capability_t.is_valid ⟨major, minor⟩ = true ↔
        0 < major ∧ major < 9999 ∧ 0 < minor ∧ minor < 9999) ∧
      (1 ≤ major → major ≤ 9998 → 1 ≤ minor → minor ≤ 9998 →
        compute_capability_t.is_valid ⟨major, minor⟩ = true) ∧
      ((major = 0 ∨ minor = 0 ∨ 9999 ≤ major ∨ 9999 ≤ minor) →
        compute_capability_t.is_valid ⟨major, minor⟩ = false) := by
  intro major minor
  have hiff : compute_capability_t.is_valid ⟨major, minor⟩ = true ↔
      0 < major ∧ major < 9999 ∧ 0 < minor ∧ minor < 9999 := by
    simp [compute_capability_t.is_valid, and_assoc]
  refine ⟨hiff, fun h1 h2 h3 h4 => hiff.mpr (by omega), fun h => ?_⟩
  rw [Bool.eq_false_iff]
  intro hv
  have := hiff.mp hv
  omega

/-- C5 witness: validity at `(7, 5)` and invalidity at `(0, 5)`. -/
theorem C5_is_valid_witness :
    compute_capability_t.is_valid ⟨7, 5⟩ = true ∧
      compute_capability_t.is_valid ⟨0, 5⟩ = false :=
  ⟨(C5_is_valid 7 5).2.1 (by decide) (by decide) (by decide) (by decide),
    (C5_is_valid 0 5).2.2 (Or.inl rfl)⟩

/-- C6: `empty` is truthy (returns 1) iff some component is zero, and
returns 0 whenever all three components are at least 1. -/
theorem C6_empty :
    ∀ x y z : Nat,
      (dimensions_t.empty ⟨x, y, z⟩ ≠ 0 ↔ x = 0 ∨ y = 0 ∨ z = 0) ∧
      (dimensions_t.empty ⟨x, y, z⟩ = 1 ↔ x = 0 ∨ y = 0 ∨ z = 0) ∧
      (1 ≤ x → 1 ≤ y → 1 ≤ z → dimensions_t.empty ⟨x, y, z⟩ = 0) := by
  intro x y z
  by_cases hx : x = 0 <;> by_cases hy : y = 0 <;> by_cases hz : z = 0 <;>
    simp [dimensions_t.empty, hx, hy, hz]

/-- C6 witness: `empty` is 0 at `(5, 5, 5)` and 1 at `(5, 0, 5)`. -/
theorem C6_empty_witness :
    dimensions_t.empty ⟨5, 5, 5⟩ = 0 ∧ dimensions_t.empty ⟨5, 0, 5⟩ = 1 :=
  ⟨(C6_empty 5 5 5).2.2 (by decide) (by decide) (by decide),
    (C6_empty 5 0 5).2.1.mpr (Or.inr (Or.inl rfl))⟩

/-- C7: `dimensionality` counts the axes of length greater than 1, is at
most 3, and takes the spec's concrete values at `(1,1,1)`, `(5,1,1)`,
`(5,5,1)` and `(5,5,5)`. -/
theorem C7_dimensionality :
    (∀ x y z : Nat,
        dimensions_t.dimensionality ⟨x, y, z⟩ =
          List.countP (fun a => decide (1 < a)) [x, y, z] ∧
        dimensions_t.dimensionality ⟨x, y, z⟩ ≤ 3) ∧
      dimensions_t.dimensionality ⟨1, 1, 1⟩ = 0 ∧
      dimensions_t.dimensionality ⟨5, 1, 1⟩ = 1 ∧
      dimensions_t.dimensionality ⟨5, 5, 1⟩ = 2 ∧
      dimensions_t.dimensionality ⟨5, 5, 5⟩ = 3 := by
  refine ⟨fun x y z => ?_, by decide, by decide, by decide, by decide⟩
  by_cases h1 : 1 < x <;> by_cases h2 : 1 < y <;> by_cases h3 : 1 < z <;>
    simp [dimensions_t.dimensionality, List.countP_cons, h1, h2, h3]

/-- C8: `operator==` on `launch_configuration_t` is field-wise across grid
dimensions (component-wise), block dimensions (component-wise) and the
dynamic shared-memory size; equivalently, two configurations compare equal
iff they are structurally identical, independent of construction path. -/
theorem C8_launch_config_eq :
    ∀ l r : launch_configuration_t,
      (launch_config_eq l r = true ↔
        (l.grid_dimensions.x = r.grid_dimensions.x ∧
          l.grid_dimensions.y = r.grid_dimensions.y ∧
          l.grid_dimensions.z = r.grid_dimensions.z ∧
          l.block_dimensions.x = r.block_dimensions.x ∧
          l.block_dimensions.y = r.block_dimensions.y ∧
          l.block_dimensions.z = r.block_dimensions.z ∧
          l.dynamic_shared_memory_size = r.dynamic_shared_memory_size)) ∧
      (launch_config_eq l r = true ↔ l = r) := by
  intro l r
  obtain ⟨⟨lgx, lgy, lgz⟩, ⟨lbx, lby, lbz⟩, ls⟩ := l
  obtain ⟨⟨rgx, rgy, rgz⟩, ⟨rbx, rby, rbz⟩, rs⟩ := r
  constructor <;> simp [launch_config_eq, dimensions_t_eq, dim3_eq, and_assoc]

/-- C9: every enum alias equals its canonical counterpart: the four cache
preference aliases coincide with their canonical enumerators for any values
of the external driver constants, and `sync`/`async` equal
`synchronous`/`asynchronous`. -/
theorem C9_enum_aliases :
    (∀ c : cudaFuncCacheConstants,
        multiprocessor_cache_preference_t.none c =
            multiprocessor_cache_preference_t.no_preference c ∧
          multiprocessor_cache_preference_t.equal c =
            multiprocessor_cache_preference_t.equal_l1_and_shared_memory c ∧
          multiprocessor_cache_preference_t.prefer_shared c =
            multiprocessor_cache_preference_t.prefer_shared_memory_over_l1 c ∧
          multiprocessor_cache_preference_t.prefer_l1 c =
            multiprocessor_cache_preference_t.prefer_l1_over_shared_memory c) ∧
      synchronicity_t.sync = synchronicity_t.synchronous ∧
      synchronicity_t.async = synchronicity_t.asynchronous :=
  ⟨fun _ => ⟨rfl, rfl, rfl, rfl⟩, rfl, rfl⟩

end cuda
